import Mathlib

/-
Verification of the AUST notice-board RSS generator.

This file gives a shallow embedding of the merge/dedup/sort pipeline of
`generate-rss.py` (functions `check_for_new_content`, `fetch_notices`,
`generate_rss_feed` and the `__main__` driver) and of the serializer of
`generate-shed-scholarship-rss.py`, and proves properties about it.

Modelling conventions:
- Timestamps are integers (seconds); `timedelta.days >= 7` on a nonnegative
  difference is exactly `7 * 86400 <= now - t`.
- MD5/SHA1 digests are kept abstract: MD5 digests are represented by the
  string being hashed (the detector only ever compares digests for equality),
  and SHA1 guids by a `Guid.contentHash` constructor carrying the exact input
  string handed to `hashlib.sha1`.
- Python's `list.sort(key=..., reverse=True)` is a stable descending sort;
  a stable sort of a list under a total preorder is unique, so it is modelled
  by `List.insertionSort` with the relation `dateDesc` (descending pub_date,
  ties kept in encounter order).
-/

namespace AustRss

/-- A notice record, as built by `fetch_notices` and consumed by
`generate_rss_feed` (the dict with keys title/link/guid/is_permalink/
pub_date/description). -/
structure Notice where
  title : String
  link : String
  guid : String
  is_permalink : Bool
  pub_date : Int
  description : String
deriving DecidableEq, Repr

/-- The configured source page URL (`NOTICE_URL` in generate-rss.py). -/
def NOTICE_URL : String := "https://aust.edu/notice"

/-- The feed size bound (`MAX_FEED_ITEMS` in generate-rss.py). -/
def MAX_FEED_ITEMS : Nat := 50

/-- A guid value: either the notice's link used as a permalink, or the SHA1
digest of `input` (the digest itself is abstract; the constructor records
exactly the string passed to `hashlib.sha1`). -/
inductive Guid where
  | permalink (url : String)
  | contentHash (input : String)
deriving DecidableEq, Repr

/-- Guid derivation of `fetch_notices` (generate-rss.py lines 196-202):
`if link and link != NOTICE_URL: guid = link; is_permalink = True` and
otherwise `guid_content = f"{title}-{summary}"`, SHA1 of that,
`is_permalink = False`.  Returns the guid together with the permalink flag. -/
def deriveGuid (title summary link : String) : Guid × Bool :=
  if link ≠ "" ∧ link ≠ NOTICE_URL then
    (Guid.permalink link, true)
  else
    (Guid.contentHash (title ++ "-" ++ summary), false)

/-- Descending publication-date order used by the merge
(`combined_items_data.sort(key=lambda x: x['pub_date'], reverse=True)`). -/
def dateDesc (a b : Notice) : Prop := b.pub_date ≤ a.pub_date

instance : DecidableRel dateDesc := fun a b => Int.decLe b.pub_date a.pub_date

instance : IsTotal Notice dateDesc := ⟨fun a b => le_total b.pub_date a.pub_date⟩

instance : IsTrans Notice dateDesc := ⟨fun _ _ _ h1 h2 => le_trans h2 h1⟩

/-- Stable descending sort by `pub_date`, modelling Python's stable
`list.sort(key=lambda x: x['pub_date'], reverse=True)`. -/
def sortByDateDesc (l : List Notice) : List Notice := List.insertionSort dateDesc l

/-- The first merge phase (generate-rss.py lines 305-313): keep exactly the
fetched notices whose guid is not among the existing feed's guids. -/
def freshNotices (notices : List Notice) (existing_guids : List String) : List Notice :=
  notices.filter (fun n => decide (n.guid ∉ existing_guids))

/-- The second merge phase (generate-rss.py lines 316-345): walk the old feed
items in stored order and append each one whose guid element is nonempty and
not already present among the accumulated items, stopping once `b` old items
have been appended (the loop breaks when `loaded_old_items >= num_old_items_to_add`). -/
def addOldItems : List Notice → List Notice → Nat → List Notice
  | acc, [], _ => acc
  | acc, o :: rest, b =>
    if b = 0 then acc
    else if o.guid ≠ "" ∧ ∀ a ∈ acc, a.guid ≠ o.guid then
      addOldItems (acc ++ [o]) rest (b - 1)
    else
      addOldItems acc rest b

/-- The merged item list before sorting and truncation (generate-rss.py
lines 305-348): the fresh notices, followed - only when the remaining budget
`max_items - |fresh|` is positive - by old items appended by the bounded
dedup walk of the existing feed. -/
def mergedItems (notices : List Notice) (existing_guids : List String)
    (old_items : List Notice) (max_items : Nat) : List Notice :=
  if 0 < max_items - (freshNotices notices existing_guids).length then
    addOldItems (freshNotices notices existing_guids) old_items
      (max_items - (freshNotices notices existing_guids).length)
  else
    freshNotices notices existing_guids

/-- The item list emitted by `generate_rss_feed` (generate-rss.py lines
305-354): the merged items, sorted by publication date descending, and
truncated to `max_items` (`combined_items_data[:MAX_FEED_ITEMS]`).
`old_items` is the stored item sequence of the existing feed file (empty when
the file is absent or unparseable), and `existing_guids` is the guid set
loaded by `load_existing_feed_guids`. -/
def generate_rss_feed_items (notices : List Notice) (existing_guids : List String)
    (old_items : List Notice) (max_items : Nat) : List Notice :=
  (sortByDateDesc (mergedItems notices existing_guids old_items max_items)).take max_items

/-- Builder for concrete sample notices used in concrete scenarios: guid `g`,
publication timestamp `d`, title and description `t`. -/
def mkNotice (g : String) (d : Int) (t : String) : Notice :=
  { title := t, link := NOTICE_URL, guid := g, is_permalink := false,
    pub_date := d, description := t }

/-- Contents of the change-cache JSON file (`notice_cache.json`): the three
optional keys `content_hash`, `last_check` (a timestamp) and `last_modified`. -/
structure Cache where
  content_hash : Option String
  last_check : Option Int
  last_modified : Option String
deriving DecidableEq, Repr

/-- Result of attempting to read the cache file: missing, unreadable
(JSON/IO/value error), or successfully loaded. -/
inductive CacheRead where
  | absent
  | unreadable
  | ok (c : Cache)
deriving DecidableEq, Repr

/-- Result of the HTTP GET in `check_for_new_content`: a raised exception, or
a response with a status code, the MD5 digest of its body (kept abstract as
the body itself), and an optional Last-Modified header. -/
inductive FetchOutcome where
  | fetchError
  | response (status : Nat) (body_hash : String) (last_modified_header : Option String)
deriving DecidableEq, Repr

/-- Effect of a detector run on the cache file: either no write is attempted,
or the given new cache record is written. -/
inductive CacheEffect where
  | noWrite
  | write (c : Cache)
deriving DecidableEq, Repr

def SECONDS_PER_DAY : Int := 86400

/-- The weekly forced-refresh test (generate-rss.py lines 63-77): true iff the
cache file loads, holds a `last_check`, and `(now - last_check).days >= 7`. -/
def weeklyForce (cacheFile : CacheRead) (now : Int) : Bool :=
  match cacheFile with
  | .ok c =>
    match c.last_check with
    | some t => decide (7 * SECONDS_PER_DAY ≤ now - t)
    | none => false
  | _ => false

/-- The cache dict visible to the hash comparison (generate-rss.py lines
88-98): the loaded record, or the empty dict when the file is missing or
unreadable. -/
def loadedCache (cacheFile : CacheRead) : Cache :=
  match cacheFile with
  | .ok c => c
  | _ => { content_hash := none, last_check := none, last_modified := none }

/-- The change detector `check_for_new_content` (generate-rss.py lines
59-142), as a function of the cache-file read outcome, the current time and
the fetch outcome.  Returns the boolean result together with the effect on
the cache file. -/
def check_for_new_content (cacheFile : CacheRead) (now : Int) (fetch : FetchOutcome) :
    Bool × CacheEffect :=
  if weeklyForce cacheFile now then (true, CacheEffect.noWrite)
  else
    match fetch with
    | .fetchError => (true, CacheEffect.noWrite)
    | .response status body_hash lm =>
      if status = 304 then (false, CacheEffect.noWrite)
      else if status = 200 then
        if (loadedCache cacheFile).content_hash = some body_hash then
          (false, CacheEffect.noWrite)
        else
          (true, CacheEffect.write
            { content_hash := some body_hash, last_check := some now, last_modified := lm })
      else (true, CacheEffect.noWrite)

/-- Observable steps of the `__main__` driver of generate-rss.py. -/
inductive RunEvent where
  | fetchNotices
  | changeCheck (result : Bool)
  | loadGuids
  | generateFeed
deriving DecidableEq, Repr

/-- Event trace of the `__main__` block of generate-rss.py (lines 381-422):
`fetch_notices()` runs first, then `load_existing_feed_guids`, and
`generate_rss_feed` runs exactly when some fetched notice's guid is absent
from the loaded guid set.  `check_for_new_content` is never invoked there. -/
def mainEvents (fetched : List Notice) (current_guids : List String) : List RunEvent :=
  [RunEvent.fetchNotices, RunEvent.loadGuids] ++
    (if fetched.any (fun n => decide (n.guid ∉ current_guids)) then
      [RunEvent.generateFeed]
    else [])

/-- Outcome of the cosmetic minidom pretty-print pass over the compact XML
byte string. -/
inductive PrettyResult where
  | ok (s : String)
  | failed
deriving DecidableEq, Repr

/-- Bytes chosen by the notice-feed serializer (generate-rss.py lines
366-371): the prettified output, or the compact `ET.tostring` bytes when
prettifying raised (`except Exception: ... pretty_xml_str = xml_str`). -/
def aust_serialized_bytes (compact : String) (p : PrettyResult) : String :=
  match p with
  | .ok s => s
  | .failed => compact

/-- The notice-feed serializer's write (generate-rss.py lines 373-378): the
write is always attempted, with the chosen bytes (`some` = bytes handed to
`f.write`). -/
def aust_write_attempt (compact : String) (p : PrettyResult) : Option String :=
  some (aust_serialized_bytes compact p)

/-- Outcome of the scholarship serializer: either bytes written to the feed
file, or process exit with the given status code. -/
inductive ShedOutcome where
  | written (bytes : String)
  | exited (code : Nat)
deriving DecidableEq, Repr

/-- The scholarship serializer `generate_rss_feed` of
generate-shed-scholarship-rss.py (lines 96-125): building, prettifying and
writing all live inside one `try`; any exception, including a prettify
failure at line 117, reaches `except Exception: ... sys.exit(1)` before the
file is opened, so nothing is written. -/
def shed_write_attempt (_compact : String) (p : PrettyResult) : ShedOutcome :=
  match p with
  | .ok s => ShedOutcome.written s
  | .failed => ShedOutcome.exited 1

/-- Guid derivation of `fetch_scholarship_notices`
(generate-shed-scholarship-rss.py line 67):
`guid = hashlib.sha1((title + link).encode("utf-8")).hexdigest()`,
unconditionally - there is no permalink branch, every guid is a content
hash of title followed directly by link, and the serialized guid element
carries no isPermaLink attribute at all (line 114). -/
def shed_deriveGuid (title link : String) : Guid :=
  Guid.contentHash (title ++ link)

/-- Membership in the fresh partition: exactly the fetched notices whose guid
is absent from the existing guid set. -/
theorem mem_freshNotices {x : Notice} {notices : List Notice} {gs : List String} :
    x ∈ freshNotices notices gs ↔ x ∈ notices ∧ x.guid ∉ gs := by
  simp [freshNotices, List.mem_filter]

/-- The stable descending sort permutes its input. -/
theorem sortByDateDesc_perm (l : List Notice) : (sortByDateDesc l).Perm l :=
  List.perm_insertionSort dateDesc l

/-- The stable descending sort is pairwise descending in `pub_date`. -/
theorem sortByDateDesc_sorted (l : List Notice) :
    (sortByDateDesc l).Pairwise (fun a b => b.pub_date ≤ a.pub_date) :=
  List.sorted_insertionSort dateDesc l

/-- The old-item walk can add at most one item carrying any given guid: the
count of `g`-guid items in the result is at most `max 1 (count in acc)`. -/
theorem addOldItems_countP_le (g : String) (old : List Notice) :
    ∀ (acc : List Notice) (b : Nat),
      List.countP (fun i => decide (i.guid = g)) (addOldItems acc old b)
        ≤ max 1 (List.countP (fun i => decide (i.guid = g)) acc) := by
  induction old with
  | nil =>
    intro acc b
    rw [addOldItems]
    exact le_max_right _ _
  | cons o rest ih =>
    intro acc b
    rw [addOldItems]
    by_cases hb : b = 0
    · rw [if_pos hb]; exact le_max_right _ _
    · rw [if_neg hb]
      by_cases hc : o.guid ≠ "" ∧ ∀ a ∈ acc, a.guid ≠ o.guid
      · rw [if_pos hc]
        have happ : List.countP (fun i => decide (i.guid = g)) (acc ++ [o])
            = List.countP (fun i => decide (i.guid = g)) acc
              + (if o.guid = g then 1 else 0) := by
          rw [List.countP_append]
          simp [List.countP_cons]
        by_cases hog : o.guid = g
        · have hz : List.countP (fun i => decide (i.guid = g)) acc = 0 := by
            rw [List.countP_eq_zero]
            intro a ha hpa
            exact hc.2 a ha ((of_decide_eq_true hpa).trans hog.symm)
          have hrec := ih (acc ++ [o]) (b - 1)
          rw [happ, hz, if_pos hog] at hrec
          rw [hz]
          omega
        · have hrec := ih (acc ++ [o]) (b - 1)
          rw [happ, if_neg hog] at hrec
          simpa using hrec
      · rw [if_neg hc]; exact ih acc b

/-- Every item produced by the old-item walk comes from the accumulator or
from the old feed items. -/
theorem mem_addOldItems (old : List Notice) :
    ∀ (acc : List Notice) (b : Nat) (x : Notice),
      x ∈ addOldItems acc old b → x ∈ acc ∨ x ∈ old := by
  induction old with
  | nil =>
    intro acc b x hx
    rw [addOldItems] at hx
    exact Or.inl hx
  | cons o rest ih =>
    intro acc b x hx
    rw [addOldItems] at hx
    by_cases hb : b = 0
    · rw [if_pos hb] at hx; exact Or.inl hx
    · rw [if_neg hb] at hx
      by_cases hc : o.guid ≠ "" ∧ ∀ a ∈ acc, a.guid ≠ o.guid
      · rw [if_pos hc] at hx
        rcases ih (acc ++ [o]) (b - 1) x hx with h | h
        · rcases List.mem_append.mp h with h1 | h1
          · exact Or.inl h1
          · simp only [List.mem_singleton] at h1
            subst h1
            exact Or.inr (List.mem_cons_self _ _)
        · exact Or.inr (List.mem_cons_of_mem _ h)
      · rw [if_neg hc] at hx
        rcases ih acc b x hx with h | h
        · exact Or.inl h
        · exact Or.inr (List.mem_cons_of_mem _ h)

/-- The old-item walk preserves guid uniqueness of the accumulator. -/
theorem addOldItems_nodup (old : List Notice) :
    ∀ (acc : List Notice) (b : Nat),
      (acc.map (fun i => i.guid)).Nodup →
      ((addOldItems acc old b).map (fun i => i.guid)).Nodup := by
  induction old with
  | nil =>
    intro acc b h
    rw [addOldItems]
    exact h
  | cons o rest ih =>
    intro acc b h
    rw [addOldItems]
    by_cases hb : b = 0
    · rw [if_pos hb]; exact h
    · rw [if_neg hb]
      by_cases hc : o.guid ≠ "" ∧ ∀ a ∈ acc, a.guid ≠ o.guid
      · rw [if_pos hc]
        refine ih (acc ++ [o]) (b - 1) ?_
        have hnot : o.guid ∉ acc.map (fun i => i.guid) := by
          intro hmem
          rcases List.mem_map.mp hmem with ⟨a, ha, hag⟩
          exact hc.2 a ha hag
        rw [List.map_append, List.map_singleton, List.nodup_middle]
        rw [List.append_nil, List.nodup_cons]
        exact ⟨hnot, h⟩
      · rw [if_neg hc]; exact ih acc b h

/-- When the budget suffices and the old items have nonempty, pairwise
distinct guids disjoint from the accumulator's, the walk appends all of
them in stored order. -/
theorem addOldItems_eq_append (old : List Notice) :
    ∀ (acc : List Notice) (b : Nat),
      old.length ≤ b →
      (∀ o ∈ old, o.guid ≠ "") →
      ((old.map (fun i => i.guid)).Nodup) →
      (∀ o ∈ old, ∀ a ∈ acc, a.guid ≠ o.guid) →
      addOldItems acc old b = acc ++ old := by
  induction old with
  | nil =>
    intro acc b _ _ _ _
    rw [addOldItems, List.append_nil]
  | cons o rest ih =>
    intro acc b hb hne hnd hdisj
    have hb0 : ¬ b = 0 := by
      simp only [List.length_cons] at hb
      omega
    have hc : o.guid ≠ "" ∧ ∀ a ∈ acc, a.guid ≠ o.guid :=
      ⟨hne o (List.mem_cons_self _ _), fun a ha => hdisj o (List.mem_cons_self _ _) a ha⟩
    rw [addOldItems, if_neg hb0, if_pos hc]
    have h1 : rest.length ≤ b - 1 := by
      simp only [List.length_cons] at hb
      omega
    have h2 : ∀ o' ∈ rest, o'.guid ≠ "" :=
      fun o' ho' => hne o' (List.mem_cons_of_mem _ ho')
    have h3 : (rest.map (fun i => i.guid)).Nodup := by
      rw [List.map_cons, List.nodup_cons] at hnd
      exact hnd.2
    have h4 : ∀ o' ∈ rest, ∀ a ∈ acc ++ [o], a.guid ≠ o'.guid := by
      intro o' ho' a ha
      rcases List.mem_append.mp ha with ha1 | ha1
      · exact hdisj o' (List.mem_cons_of_mem _ ho') a ha1
      · simp only [List.mem_singleton] at ha1
        rw [ha1]
        have hno : o.guid ∉ rest.map (fun i => i.guid) := by
          rw [List.map_cons, List.nodup_cons] at hnd
          exact hnd.1
        intro heq
        exact hno (List.mem_map.mpr ⟨o', ho', heq.symm⟩)
    rw [ih (acc ++ [o]) (b - 1) h1 h2 h3 h4]
    rw [List.append_assoc, List.singleton_append]

/-- Claim C1, refuted as stated: prior feed `[B(date 2, title oldB),
A(date 1)]`, fetched `[C(date 5), B(date 5, title newB)]`, max 50.  The
fetched notice with guid B collides with the prior feed, and the unique
output item with guid B is the STALE persisted item (title oldB, date 2):
the fresh fields do not take precedence, contrary to the claim. -/
theorem C1_counterexample :
    (generate_rss_feed_items [mkNotice "C" 5 "C", mkNotice "B" 5 "newB"] ["B", "A"]
        [mkNotice "B" 2 "oldB", mkNotice "A" 1 "oldA"] 50).filter
      (fun i => decide (i.guid = "B")) = [mkNotice "B" 2 "oldB"]
    ∧ (mkNotice "B" 2 "oldB").title = "oldB"
    ∧ ¬ ((mkNotice "B" 2 "oldB").title = (mkNotice "B" 5 "newB").title
        ∧ (mkNotice "B" 2 "oldB").pub_date = (mkNotice "B" 5 "newB").pub_date) := by
  decide

/-- Claim C1 (amended): for every merge where a fetched notice's guid already
exists in the prior feed's guid set, the output contains AT MOST one item
with that guid, and any such item is one of the persisted old items (so it
carries the stale title/description/date): the fresh duplicate is dropped by
the guid filter, not preferred. -/
theorem C1_amended (notices : List Notice) (existing_guids : List String)
    (old_items : List Notice) (max_items : Nat) (n : Notice)
    (_hn : n ∈ notices) (hg : n.guid ∈ existing_guids) :
    ((generate_rss_feed_items notices existing_guids old_items max_items).filter
        (fun i => decide (i.guid = n.guid))).length ≤ 1
    ∧ ∀ i ∈ generate_rss_feed_items notices existing_guids old_items max_items,
        i.guid = n.guid → i ∈ old_items := by
  have hz : List.countP (fun i => decide (i.guid = n.guid))
      (freshNotices notices existing_guids) = 0 := by
    rw [List.countP_eq_zero]
    intro a ha hpa
    exact (mem_freshNotices.mp ha).2 ((of_decide_eq_true hpa) ▸ hg)
  have hM : List.countP (fun i => decide (i.guid = n.guid))
      (mergedItems notices existing_guids old_items max_items) ≤ 1 := by
    unfold mergedItems
    split
    · have hrec := addOldItems_countP_le n.guid old_items
        (freshNotices notices existing_guids)
        (max_items - (freshNotices notices existing_guids).length)
      rw [hz] at hrec
      omega
    · rw [hz]
      omega
  constructor
  · rw [← List.countP_eq_length_filter]
    have h1 := List.Sublist.countP_le (fun i => decide (i.guid = n.guid))
      (List.take_sublist max_items
        (sortByDateDesc (mergedItems notices existing_guids old_items max_items)))
    have h2 := (sortByDateDesc_perm
      (mergedItems notices existing_guids old_items max_items)).countP_eq
      (fun i => decide (i.guid = n.guid))
    calc ((generate_rss_feed_items notices existing_guids old_items max_items).countP
            (fun i => decide (i.guid = n.guid)))
        ≤ _ := h1
      _ = _ := h2
      _ ≤ 1 := hM
  · intro i hi hguid
    have hi1 : i ∈ sortByDateDesc (mergedItems notices existing_guids old_items max_items) :=
      (List.take_sublist _ _).subset hi
    have hi2 : i ∈ mergedItems notices existing_guids old_items max_items :=
      ((sortByDateDesc_perm _).mem_iff).mp hi1
    have hfr : i ∉ freshNotices notices existing_guids := by
      intro hmem
      exact (mem_freshNotices.mp hmem).2 (hguid ▸ hg)
    unfold mergedItems at hi2
    split at hi2
    · rcases mem_addOldItems old_items _ _ i hi2 with h | h
      · exact absurd h hfr
      · exact h
    · exact absurd hi2 hfr

/-- Witness for the amended C1 at the spec's own example scenario with
`max_items = 3`. -/
theorem C1_amended_witness :
    mkNotice "B" 5 "newB" ∈ [mkNotice "C" 7 "C", mkNotice "B" 5 "newB"]
    ∧ (mkNotice "B" 5 "newB").guid ∈ ["B", "A"]
    ∧ (((generate_rss_feed_items [mkNotice "C" 7 "C", mkNotice "B" 5 "newB"] ["B", "A"]
            [mkNotice "B" 2 "oldB", mkNotice "A" 1 "oldA"] 3).filter
          (fun i => decide (i.guid = (mkNotice "B" 5 "newB").guid))).length ≤ 1
      ∧ ∀ i ∈ generate_rss_feed_items [mkNotice "C" 7 "C", mkNotice "B" 5 "newB"] ["B", "A"]
            [mkNotice "B" 2 "oldB", mkNotice "A" 1 "oldA"] 3,
          i.guid = (mkNotice "B" 5 "newB").guid
            → i ∈ [mkNotice "B" 2 "oldB", mkNotice "A" 1 "oldA"]) :=
  ⟨by decide, by decide,
    C1_amended [mkNotice "C" 7 "C", mkNotice "B" 5 "newB"] ["B", "A"]
      [mkNotice "B" 2 "oldB", mkNotice "A" 1 "oldA"] 3 (mkNotice "B" 5 "newB")
      (by decide) (by decide)⟩

/-- Claim C2: when at least `max_items` fetched notices are fresh, the output
is exactly the first `max_items` entries of the stable descending sort of the
fresh list - so it has exactly `max_items` items, all drawn from the fresh
set (none from the persisted feed), the maximal ones by `pub_date` with ties
in encounter order. -/
theorem C2_fresh_priority (notices : List Notice) (existing_guids : List String)
    (old_items : List Notice) (max_items : Nat)
    (h : max_items ≤ (freshNotices notices existing_guids).length) :
    generate_rss_feed_items notices existing_guids old_items max_items
        = (sortByDateDesc (freshNotices notices existing_guids)).take max_items
    ∧ (generate_rss_feed_items notices existing_guids old_items max_items).length
        = max_items
    ∧ ∀ i ∈ generate_rss_feed_items notices existing_guids old_items max_items,
        i ∈ freshNotices notices existing_guids := by
  have hbud : max_items - (freshNotices notices existing_guids).length = 0 :=
    Nat.sub_eq_zero_of_le h
  have heq : generate_rss_feed_items notices existing_guids old_items max_items
      = (sortByDateDesc (freshNotices notices existing_guids)).take max_items := by
    unfold generate_rss_feed_items mergedItems
    rw [hbud, if_neg (Nat.lt_irrefl 0)]
  refine ⟨heq, ?_, ?_⟩
  · rw [heq, List.length_take]
    have hl : (sortByDateDesc (freshNotices notices existing_guids)).length
        = (freshNotices notices existing_guids).length :=
      (sortByDateDesc_perm _).length_eq
    omega
  · intro i hi
    rw [heq] at hi
    exact ((sortByDateDesc_perm _).mem_iff).mp ((List.take_sublist _ _).subset hi)

/-- Witness for C2 at the spec's second example scenario: `max_items = 1`,
two fresh notices X, Y, one prior item Z. -/
theorem C2_fresh_priority_witness :
    1 ≤ (freshNotices [mkNotice "X" 10 "X", mkNotice "Y" 9 "Y"] ["Z"]).length
    ∧ (generate_rss_feed_items [mkNotice "X" 10 "X", mkNotice "Y" 9 "Y"] ["Z"]
            [mkNotice "Z" 1 "Z"] 1
          = (sortByDateDesc (freshNotices [mkNotice "X" 10 "X", mkNotice "Y" 9 "Y"]
              ["Z"])).take 1
      ∧ (generate_rss_feed_items [mkNotice "X" 10 "X", mkNotice "Y" 9 "Y"] ["Z"]
            [mkNotice "Z" 1 "Z"] 1).length = 1
      ∧ ∀ i ∈ generate_rss_feed_items [mkNotice "X" 10 "X", mkNotice "Y" 9 "Y"] ["Z"]
            [mkNotice "Z" 1 "Z"] 1,
          i ∈ freshNotices [mkNotice "X" 10 "X", mkNotice "Y" 9 "Y"] ["Z"]) :=
  ⟨by decide,
    C2_fresh_priority [mkNotice "X" 10 "X", mkNotice "Y" 9 "Y"] ["Z"]
      [mkNotice "Z" 1 "Z"] 1 (by decide)⟩

/-- Claim C3, refuted as stated: when the fetched list itself contains two
notices with the same guid (here guid G twice) that is absent from the prior
feed, both pass the guid filter against `existing_guids` and the emitted
sequence carries the guid twice. -/
theorem C3_counterexample :
    ¬ (((generate_rss_feed_items [mkNotice "G" 5 "t1", mkNotice "G" 4 "t2"] [] [] 50).map
        (fun i => i.guid)).Nodup) := by
  decide

/-- Claim C3 (amended): for every merge input whose fetched notice list has
pairwise distinct guids (the prior feed unconstrained), the emitted item
sequence contains no two items with the same guid; the dedup against the
prior feed and among old items holds unconditionally, only duplicates inside
the fetched list itself survive. -/
theorem C3_amended (notices : List Notice) (existing_guids : List String)
    (old_items : List Notice) (max_items : Nat)
    (h : (notices.map (fun i => i.guid)).Nodup) :
    ((generate_rss_feed_items notices existing_guids old_items max_items).map
        (fun i => i.guid)).Nodup := by
  have hf : ((freshNotices notices existing_guids).map (fun i => i.guid)).Nodup :=
    List.Nodup.sublist (List.Sublist.map _ (List.filter_sublist notices)) h
  have hM : ((mergedItems notices existing_guids old_items max_items).map
      (fun i => i.guid)).Nodup := by
    unfold mergedItems
    split
    · exact addOldItems_nodup old_items _ _ hf
    · exact hf
  have hperm := (sortByDateDesc_perm
    (mergedItems notices existing_guids old_items max_items)).map (fun i => i.guid)
  have hs : ((sortByDateDesc (mergedItems notices existing_guids old_items
      max_items)).map (fun i => i.guid)).Nodup := hperm.symm.nodup hM
  exact List.Nodup.sublist (List.Sublist.map _ (List.take_sublist max_items _)) hs

/-- Witness for the amended C3: two distinct-guid fetched notices against a
one-item prior feed keep their guids unique in the output. -/
theorem C3_amended_witness :
    (([mkNotice "P" 3 "p", mkNotice "Q" 9 "q"].map (fun i => i.guid)).Nodup)
    ∧ ((generate_rss_feed_items [mkNotice "P" 3 "p", mkNotice "Q" 9 "q"] ["R"]
          [mkNotice "R" 1 "r"] 50).map (fun i => i.guid)).Nodup :=
  ⟨by decide,
    C3_amended [mkNotice "P" 3 "p", mkNotice "Q" 9 "q"] ["R"] [mkNotice "R" 1 "r"] 50
      (by decide)⟩

/-- Claim C4: in every merge output, every adjacent pair (a, b) of the
emitted item sequence satisfies `a.pub_date >= b.pub_date`, and this holds
after the truncation to `max_items`. -/
theorem C4_sort_order (notices : List Notice) (existing_guids : List String)
    (old_items : List Notice) (max_items : Nat) :
    List.Chain' (fun a b => b.pub_date ≤ a.pub_date)
      (generate_rss_feed_items notices existing_guids old_items max_items) := by
  have hp := sortByDateDesc_sorted (mergedItems notices existing_guids old_items max_items)
  exact (List.Pairwise.sublist (List.take_sublist max_items _) hp).chain'

/-- Claim C5: merging an empty fetched list against a well-formed existing
feed (at most `max_items` items, nonempty pairwise-distinct guids, sorted by
`pub_date` descending) returns exactly the same items in the same order -
only the channel build timestamp, which is outside the item list, differs. -/
theorem C5_idempotence (existing_guids : List String) (old_items : List Notice)
    (max_items : Nat)
    (hlen : old_items.length ≤ max_items)
    (hne : ∀ o ∈ old_items, o.guid ≠ "")
    (hnodup : (old_items.map (fun i => i.guid)).Nodup)
    (hsorted : old_items.Pairwise (fun a b => b.pub_date ≤ a.pub_date)) :
    generate_rss_feed_items [] existing_guids old_items max_items = old_items := by
  have hfresh : freshNotices [] existing_guids = [] := rfl
  unfold generate_rss_feed_items mergedItems
  rw [hfresh]
  simp only [List.length_nil, Nat.sub_zero]
  by_cases hm : 0 < max_items
  · rw [if_pos hm]
    rw [addOldItems_eq_append old_items [] max_items hlen hne hnodup
      (fun o _ a ha => absurd ha (List.not_mem_nil a))]
    rw [List.nil_append]
    have hs : List.Sorted dateDesc old_items := hsorted
    unfold sortByDateDesc
    rw [hs.insertionSort_eq]
    exact List.take_of_length_le hlen
  · rw [if_neg hm]
    have h0 : max_items = 0 := by omega
    have hnil : old_items = [] := by
      rw [← List.length_eq_zero]
      omega
    subst h0
    rw [hnil]
    rfl

/-- Witness for C5: a two-item sorted prior feed with distinct guids is
returned unchanged by a merge with no fetched notices. -/
theorem C5_idempotence_witness :
    [mkNotice "B" 2 "B", mkNotice "A" 1 "A"].length ≤ 50
    ∧ (∀ o ∈ [mkNotice "B" 2 "B", mkNotice "A" 1 "A"], o.guid ≠ "")
    ∧ (([mkNotice "B" 2 "B", mkNotice "A" 1 "A"].map (fun i => i.guid)).Nodup)
    ∧ List.Pairwise (fun a b => b.pub_date ≤ a.pub_date)
        [mkNotice "B" 2 "B", mkNotice "A" 1 "A"]
    ∧ generate_rss_feed_items [] ["B", "A"] [mkNotice "B" 2 "B", mkNotice "A" 1 "A"] 50
        = [mkNotice "B" 2 "B", mkNotice "A" 1 "A"] :=
  ⟨by decide, by decide, by decide, by decide,
    C5_idempotence ["B", "A"] [mkNotice "B" 2 "B", mkNotice "A" 1 "A"] 50
      (by decide) (by decide) (by decide) (by decide)⟩

/-- Claim C6, refuted as stated, in both cited extractors.  Notice
extractor: for a notice with title `T`, summary `S` (hence description `S`)
and an unusable link, the string handed to SHA1 is `T-S` (title, a literal
hyphen, then the raw summary), not the claimed `title ++ description` =
`TS`.  Scholarship extractor: for a notice with title `T` and a usable
absolute link distinct from its source page, the guid is still the content
hash of title followed directly by link, never the link itself as a
permalink. -/
theorem C6_counterexample :
    (deriveGuid "T" "S" NOTICE_URL).1 = Guid.contentHash "T-S"
    ∧ Guid.contentHash "T-S" ≠ Guid.contentHash ("T" ++ "S")
    ∧ shed_deriveGuid "T" "https://x" = Guid.contentHash ("T" ++ "https://x")
    ∧ Guid.contentHash ("T" ++ "https://x") ≠ Guid.permalink "https://x" := by
  decide

/-- Claim C6 (amended), split by extractor.  Notice extractor
(generate-rss.py): if the extracted link is nonempty and distinct from the
source page URL then the guid is the link with `is_permalink = true`;
otherwise the guid is the SHA1 of `title ++ "-" ++ summary` - the raw
summary, which may be empty, not the defaulted description - with
`is_permalink = false`.  Scholarship extractor
(generate-shed-scholarship-rss.py): the guid is unconditionally the SHA1 of
`title ++ link`, with no permalink branch and no permalink flag. -/
theorem C6_guid_derivation (title summary link : String) :
    ((link ≠ "" ∧ link ≠ NOTICE_URL) →
      deriveGuid title summary link = (Guid.permalink link, true))
    ∧ (¬ (link ≠ "" ∧ link ≠ NOTICE_URL) →
      deriveGuid title summary link
        = (Guid.contentHash (title ++ "-" ++ summary), false))
    ∧ shed_deriveGuid title link = Guid.contentHash (title ++ link) := by
  refine ⟨?_, ?_, rfl⟩
  · intro h
    unfold deriveGuid
    rw [if_pos h]
  · intro h
    unfold deriveGuid
    rw [if_neg h]

/-- Witness for the amended C6: a distinct absolute link becomes the notice
extractor's guid with the permalink flag set. -/
theorem C6_guid_derivation_witness :
    deriveGuid "T" "S" "https://aust.edu/notice/123"
      = (Guid.permalink "https://aust.edu/notice/123", true) :=
  (C6_guid_derivation "T" "S" "https://aust.edu/notice/123").1 (by decide)

/-- Claim C7, refuted as stated: with an unreadable cache file (a cache read
error) and a server that replies 304, the detector returns False - the
cache-read-error clause of the claim fails; only network errors and non-200
non-304 statuses are unconditionally fail-open. -/
theorem C7_counterexample :
    (check_for_new_content CacheRead.unreadable 0
        (FetchOutcome.response 304 "h" none)).1 = false := by
  decide

/-- Claim C7 (amended): a fetch exception resolves to true, any status other
than 200 and 304 resolves to true, and after a cache read error every
response other than a 304 also resolves to true (a 200 cannot match the
missing cached hash); only the 304 reply after a cache read error
resolves to false. -/
theorem C7_fail_open (cacheFile : CacheRead) (now : Int) (fetch : FetchOutcome) :
    (fetch = FetchOutcome.fetchError →
      (check_for_new_content cacheFile now fetch).1 = true)
    ∧ (∀ status body_hash lm, fetch = FetchOutcome.response status body_hash lm →
        status ≠ 200 → status ≠ 304 →
        (check_for_new_content cacheFile now fetch).1 = true)
    ∧ (∀ status body_hash lm, cacheFile = CacheRead.unreadable →
        fetch = FetchOutcome.response status body_hash lm → status ≠ 304 →
        (check_for_new_content cacheFile now fetch).1 = true) := by
  refine ⟨?_, ?_, ?_⟩
  · intro h
    subst h
    unfold check_for_new_content
    split
    · rfl
    · rfl
  · intro status body_hash lm h h200 h304
    subst h
    unfold check_for_new_content
    split
    · rfl
    · simp [h200, h304]
  · intro status body_hash lm hcf h h304
    subst hcf
    subst h
    by_cases h200 : status = 200
    · subst h200
      simp [check_for_new_content, weeklyForce, loadedCache]
    · simp [check_for_new_content, weeklyForce, h200, h304]

/-- Witness for the amended C7: a raised fetch exception with no cache file
resolves to true. -/
theorem C7_fail_open_witness :
    (check_for_new_content CacheRead.absent 0 FetchOutcome.fetchError).1 = true :=
  (C7_fail_open CacheRead.absent 0 FetchOutcome.fetchError).1 rfl

/-- Claim C8, refuted as stated: the driver trace with no fetched notices
contains the extraction step but no change-detection event at all -
`fetch_notices` runs without `check_for_new_content` ever having fired. -/
theorem C8_counterexample :
    RunEvent.fetchNotices ∈ mainEvents [] []
    ∧ RunEvent.changeCheck true ∉ mainEvents [] []
    ∧ RunEvent.changeCheck false ∉ mainEvents [] [] := by
  decide

/-- Claim C8 (amended): in every run, extraction executes unconditionally as
the first step, the change detector is never invoked by the driver, and it is
feed GENERATION - not extraction - that is gated, by the guid comparison:
`generate_rss_feed` runs exactly when some fetched notice's guid is absent
from the existing feed. -/
theorem C8_driver_gating (fetched : List Notice) (current_guids : List String) :
    RunEvent.fetchNotices ∈ mainEvents fetched current_guids
    ∧ (∀ b, RunEvent.changeCheck b ∉ mainEvents fetched current_guids)
    ∧ (RunEvent.generateFeed ∈ mainEvents fetched current_guids
        ↔ ∃ n ∈ fetched, n.guid ∉ current_guids) := by
  unfold mainEvents
  refine ⟨?_, ?_, ?_⟩
  · simp
  · intro b
    split <;> simp
  · constructor
    · intro h
      split at h
      · rename_i hany
        rw [List.any_eq_true] at hany
        rcases hany with ⟨n, hn, hdec⟩
        exact ⟨n, hn, of_decide_eq_true hdec⟩
      · simp at h
    · rintro ⟨n, hn, hg⟩
      have hany : fetched.any (fun n => decide (n.guid ∉ current_guids)) = true :=
        List.any_eq_true.mpr ⟨n, hn, decide_eq_true hg⟩
      rw [if_pos hany]
      simp

/-- Witness for the amended C8: extraction appears in the trace of a run that
fetched nothing against a nonempty guid set. -/
theorem C8_driver_gating_witness :
    RunEvent.fetchNotices ∈ mainEvents [] ["g"] :=
  (C8_driver_gating [] ["g"]).1

/-- Claim C9, refuted as stated: the scholarship serializer prettifies inside
the same try/except that performs the write, so a pretty-print failure exits
the process with status 1 and nothing is written - the failure does abort
the write, contrary to the claim's "both serializers" clause. -/
theorem C9_counterexample :
    shed_write_attempt "<rss/>" PrettyResult.failed = ShedOutcome.exited 1
    ∧ ShedOutcome.exited 1 ≠ ShedOutcome.written "<rss/>" := by
  decide

/-- Claim C9 (amended): the notice-feed serializer always attempts the write,
using the prettified bytes on success and falling back to the compact XML
when prettifying fails; the scholarship serializer instead exits with status
1 on a pretty-print failure, writing nothing. -/
theorem C9_pretty_fallback (compact s : String) :
    aust_write_attempt compact (PrettyResult.ok s) = some s
    ∧ aust_write_attempt compact PrettyResult.failed = some compact
    ∧ shed_write_attempt compact PrettyResult.failed = ShedOutcome.exited 1 :=
  ⟨rfl, rfl, rfl⟩

/-- Claim C10: when no weekly force is in effect and a 200 response's content
hash equals the cached hash, the detector returns false and attempts no write
to the cache file - fingerprint, last-check timestamp and last-modified
validator all stay untouched, so the 7-day refresh interval keeps counting
from the last content change. -/
theorem C10_cache_frame (c : Cache) (now : Int) (body_hash : String)
    (lm : Option String)
    (hforce : ∀ t, c.last_check = some t → now - t < 7 * SECONDS_PER_DAY)
    (hmatch : c.content_hash = some body_hash) :
    check_for_new_content (CacheRead.ok c) now (FetchOutcome.response 200 body_hash lm)
      = (false, CacheEffect.noWrite) := by
  have hwf : weeklyForce (CacheRead.ok c) now = false := by
    cases hlc : c.last_check with
    | none => simp [weeklyForce, hlc]
    | some t =>
      simp only [weeklyForce, hlc]
      exact decide_eq_false (not_le.mpr (hforce t hlc))
  unfold check_for_new_content
  rw [hwf]
  simp [loadedCache, hmatch]

/-- Witness for C10: a cache with a matching hash and no recorded last-check
timestamp yields false with no cache write. -/
theorem C10_cache_frame_witness :
    check_for_new_content
        (CacheRead.ok { content_hash := some "h", last_check := none, last_modified := none })
        0 (FetchOutcome.response 200 "h" none)
      = (false, CacheEffect.noWrite) :=
  C10_cache_frame
    { content_hash := some "h", last_check := none, last_modified := none }
    0 "h" none (fun t ht => by simp at ht) rfl

end AustRss
